import Mathlib

set_option maxRecDepth 8192

/-!
Verification development for the Ikai Asai prompt-generator repository
(src/app.py and src/app1.py).

The repository consists of two near-duplicate single-page Streamlit
applications.  The reproducible core embedded here is:

* the two prompt composers `original_enrich_prompt` and
  `enhanced_enrich_prompt` (pure string functions, present verbatim in
  both files);
* the "Generate Image" button handler of src/app.py (validation, API-key
  check, upstream call, response normalization: URL branch with a
  secondary fetch vs. inline base64 branch), modelled as `App.generateFlow`;
* the "Edit Image" button handler of src/app.py, modelled as `App.editFlow`;
* the "Generate Image with this Prompt" handler of src/app1.py, modelled
  as `App1.generateWithPromptFlow`;
* the credential lookup `get_api_key` of each file.

Python strings are embedded as Lean `String`; Python truthiness of a
string (`if s:`) is `truthy`; an attribute that may be missing or `None`
is `Option String` and `hasattr(x, f) and x.f` is `truthyOpt x.f`.
External collaborators (the OpenAI client, `requests.get`,
`base64.b64decode`) are parameters of the flows; the trace records which
effects the handler performed (whether the API client was invoked, which
URLs were fetched with `requests.get`, which payloads were passed to
`base64.b64decode`).
-/

namespace IkaiAsai

/-- Python truthiness of a string: `if s:` holds iff `s` is non-empty. -/
def truthy (s : String) : Bool := decide (s ≠ "")

/-- Truthiness of an optional string attribute: `hasattr(o, f) and o.f`.
`none` models a missing attribute or `None`. -/
def truthyOpt : Option String → Bool
  | none => false
  | some s => truthy s

/-- One entry of the image API response `data` list
(spec: `{ data: [ { url?: string, b64_payload?: string } ] }`). -/
structure DataEntry where
  url : Option String
  b64_json : Option String
deriving DecidableEq

/-- How the image bytes were obtained (spec `ImageResult.source`). -/
inductive Source
  | url
  | inline
deriving DecidableEq

/-- Outcome of one user-triggered action, one constructor per distinct
`st.error`/`st.success`/`st.info` call site of the handlers, mapped onto
the spec's error taxonomy.  `moderationBlockedError` is the spec's
distinct classification for moderation rejections; it is part of the
taxonomy so that claims about it can be stated. -/
inductive Outcome
  | success (bytes : List Nat) (src : Source)
  | urlStored (u : String)
  | validationError
  | configError
  | configInfo
  | emptyResponseError
  | noPayloadError
  | noImageFileError
  | downloadError (status : Nat)
  | upstreamError (msg : String)
  | moderationBlockedError (msg : String)
deriving DecidableEq

/-- Trace of one handler run: its outcome plus the effects it performed.
`apiCalled` records whether the OpenAI client was invoked, `promptSent`
the prompt passed to it, `fetched` the URLs downloaded with
`requests.get`, `decoded` the payloads passed to `base64.b64decode`. -/
structure Trace where
  outcome : Outcome
  apiCalled : Bool
  promptSent : Option String
  fetched : List String
  decoded : List String
deriving DecidableEq

namespace App

/-- The fixed brand-style paragraph of src/app.py (the constant
`ikai_asai_context`, identical in both composer functions). -/
def ikai_asai_context : String :=
  "handcrafted, minimalist design with an earthy aesthetic. The style draws inspiration " ++
  "from natural materials like ceramic, wood, and metal, emphasizing rustic, organic textures. " ++
  "Products are elegant, functional, and often presented in soft, natural lighting with a serene, " ++
  "contemporary feel, blending traditional Indian craftsmanship with modern sensibilities."

/-- src/app.py `original_enrich_prompt`. -/
def original_enrich_prompt (user_prompt : String) : String :=
  "Create an image of " ++ user_prompt ++ ". Style: " ++ ikai_asai_context

/-- src/app.py `enhanced_enrich_prompt` (lines 95-133). -/
def enhanced_enrich_prompt (product_type material color size additional_details
    lighting background composition mood : String) : String :=
  let product_desc0 := "a " ++ color ++ " " ++ product_type ++ " made of " ++ material
  let product_desc1 := if truthy size then product_desc0 ++ ", size " ++ size else product_desc0
  let product_desc := if truthy additional_details then
    product_desc1 ++ ". " ++ additional_details else product_desc1
  let style_desc0 := ikai_asai_context
  let style_desc1 := if truthy lighting then
    style_desc0 ++ " Lighting: " ++ lighting ++ "." else style_desc0
  let style_desc2 := if truthy background then
    style_desc1 ++ " Background: " ++ background ++ "." else style_desc1
  let style_desc3 := if truthy composition then
    style_desc2 ++ " Composition: " ++ composition ++ "." else style_desc2
  let style_desc := if truthy mood then
    style_desc3 ++ " Mood: " ++ mood ++ "." else style_desc3
  "Create an image of " ++ product_desc ++ ". Style: " ++ style_desc

/-- src/app.py `get_api_key`: reads only the `OPENAI_API_KEY` process
environment variable. -/
def get_api_key (env_openai_api_key : Option String) : Option String :=
  env_openai_api_key

/-- src/app.py "Generate Image" button handler (lines 187-260).
`fetch` models `requests.get` (status code and body bytes), `b64dec`
models `base64.b64decode`, `apiResult` models the outcome of
`client.images.generate` (`.error e` is a raised exception with message
`e`, `.ok data` a response with the given `data` list). -/
def generateFlow (fetch : String → Nat × List Nat) (b64dec : String → List Nat)
    (product_type material color size additional_details
      lighting background composition mood : String)
    (api_key : Option String) (apiResult : Except String (List DataEntry)) : Trace :=
  if truthy product_type = false then
    ⟨.validationError, false, none, [], []⟩
  else if truthyOpt api_key = false then
    ⟨.configError, false, none, [], []⟩
  else
    let prompt := enhanced_enrich_prompt product_type material color size additional_details
      lighting background composition mood
    match apiResult with
    | .error e =>
        ⟨.upstreamError ("Error during image generation: " ++ e), true, some prompt, [], []⟩
    | .ok [] =>
        ⟨.emptyResponseError, true, some prompt, [], []⟩
    | .ok (entry :: _) =>
        if truthyOpt entry.url then
          match fetch (entry.url.getD "") with
          | (status, bytes) =>
            if status = 200 then
              ⟨.success bytes .url, true, some prompt, [entry.url.getD ""], []⟩
            else
              ⟨.downloadError status, true, some prompt, [entry.url.getD ""], []⟩
        else if truthyOpt entry.b64_json then
          ⟨.success (b64dec (entry.b64_json.getD "")) .inline, true, some prompt,
            [], [entry.b64_json.getD ""]⟩
        else
          ⟨.noPayloadError, true, some prompt, [], []⟩

/-- src/app.py "Edit Image" button handler (lines 280-386).
`image_filename` models `st.session_state.image_filename`. -/
def editFlow (fetch : String → Nat × List Nat) (b64dec : String → List Nat)
    (edit_prompt : String) (api_key : Option String) (image_filename : Option String)
    (apiResult : Except String (List DataEntry)) : Trace :=
  if truthy edit_prompt = false then
    ⟨.validationError, false, none, [], []⟩
  else if truthyOpt api_key = false then
    ⟨.configError, false, none, [], []⟩
  else
    match image_filename with
    | none => ⟨.noImageFileError, false, none, [], []⟩
    | some _ =>
      match apiResult with
      | .error e =>
          ⟨.upstreamError ("Error editing image: " ++ e), true, some edit_prompt, [], []⟩
      | .ok [] =>
          ⟨.emptyResponseError, true, some edit_prompt, [], []⟩
      | .ok (entry :: _) =>
          if truthyOpt entry.url then
            match fetch (entry.url.getD "") with
            | (status, bytes) =>
              if status = 200 then
                ⟨.success bytes .url, true, some edit_prompt, [entry.url.getD ""], []⟩
              else
                ⟨.downloadError status, true, some edit_prompt, [entry.url.getD ""], []⟩
          else if truthyOpt entry.b64_json then
            ⟨.success (b64dec (entry.b64_json.getD "")) .inline, true, some edit_prompt,
              [], [entry.b64_json.getD ""]⟩
          else
            ⟨.noPayloadError, true, some edit_prompt, [], []⟩

end App

namespace App1

/-- The fixed brand-style paragraph of src/app1.py (textually identical
to the one in src/app.py). -/
def ikai_asai_context : String :=
  "handcrafted, minimalist design with an earthy aesthetic. The style draws inspiration " ++
  "from natural materials like ceramic, wood, and metal, emphasizing rustic, organic textures. " ++
  "Products are elegant, functional, and often presented in soft, natural lighting with a serene, " ++
  "contemporary feel, blending traditional Indian craftsmanship with modern sensibilities."

/-- src/app1.py `original_enrich_prompt`. -/
def original_enrich_prompt (user_prompt : String) : String :=
  "Create an image of " ++ user_prompt ++ ". Style: " ++ ikai_asai_context

/-- src/app1.py `enhanced_enrich_prompt` (lines 96-134). -/
def enhanced_enrich_prompt (product_type material color size additional_details
    lighting background composition mood : String) : String :=
  let product_desc0 := "a " ++ color ++ " " ++ product_type ++ " made of " ++ material
  let product_desc1 := if truthy size then product_desc0 ++ ", size " ++ size else product_desc0
  let product_desc := if truthy additional_details then
    product_desc1 ++ ". " ++ additional_details else product_desc1
  let style_desc0 := ikai_asai_context
  let style_desc1 := if truthy lighting then
    style_desc0 ++ " Lighting: " ++ lighting ++ "." else style_desc0
  let style_desc2 := if truthy background then
    style_desc1 ++ " Background: " ++ background ++ "." else style_desc1
  let style_desc3 := if truthy composition then
    style_desc2 ++ " Composition: " ++ composition ++ "." else style_desc2
  let style_desc := if truthy mood then
    style_desc3 ++ " Mood: " ++ mood ++ "." else style_desc3
  "Create an image of " ++ product_desc ++ ". Style: " ++ style_desc

/-- src/app1.py `get_api_key` (lines 76-80): reads the `OPENAI_API_KEY`
environment variable and falls back to the session-state key entered in
the sidebar when the environment value is missing or falsy. -/
def get_api_key (env_openai_api_key : Option String)
    (session_api_key : Option String) : Option String :=
  let api_key := env_openai_api_key
  if truthyOpt api_key = false then
    match session_api_key with
    | some s => some s
    | none => api_key
  else api_key

/-- src/app1.py "Generate Image with this Prompt" handler (lines
222-245).  The button is only rendered when `get_api_key()` is truthy;
otherwise an info notice asks the user to set the key and no client call
is made.  On success only the response URL is stored in session state
(the actual download happens later in the display section). -/
def generateWithPromptFlow (prompt : String) (api_key : Option String)
    (apiResult : Except String (List DataEntry)) : Trace :=
  if truthyOpt api_key then
    match apiResult with
    | .error e =>
        ⟨.upstreamError ("Error generating image: " ++ e), true, some prompt, [], []⟩
    | .ok [] =>
        ⟨.noPayloadError, true, some prompt, [], []⟩
    | .ok (entry :: _) =>
        if truthyOpt entry.url then
          ⟨.urlStored (entry.url.getD ""), true, some prompt, [], []⟩
        else
          ⟨.noPayloadError, true, some prompt, [], []⟩
  else
    ⟨.configInfo, false, none, [], []⟩

end App1

/-- String containment: `pat` occurs as a contiguous substring of `s`. -/
def strContains (s pat : String) : Prop := pat.data <:+: s.data

instance (s pat : String) : Decidable (strContains s pat) :=
  List.decidableInfix pat.data s.data

/-- A field is clean when it contains none of the four style labels. -/
def cleanField (f : String) : Prop :=
  ¬ strContains f "Lighting:" ∧ ¬ strContains f "Background:" ∧
    ¬ strContains f "Composition:" ∧ ¬ strContains f "Mood:"

instance (f : String) : Decidable (cleanField f) := by
  unfold cleanField
  infer_instance

end IkaiAsai

namespace IkaiAsai

/-! ### General lemmas about substring occurrence

An occurrence of `p` inside `a ++ b` lies inside `a`, inside `b`, or
straddles the junction.  When a character excluded from `p` sits at the
junction, straddling is impossible; this is what lets the clause
structure of a composed prompt be analysed junction by junction. -/

theorem infix_split {α : Type} {p a b : List α} (h : p <:+: a ++ b) :
    p <:+: a ∨ p <:+: b ∨
      ∃ s t, p = s ++ t ∧ s ≠ [] ∧ t ≠ [] ∧ s <:+ a ∧ t <+: b := by
  obtain ⟨u, v, huv⟩ := h
  rcases le_or_lt (u.length + p.length) a.length with h1 | h1
  · left
    have hup : u ++ p <+: a ++ b := ⟨v, by simpa [List.append_assoc] using huv⟩
    have hupa : u ++ p <+: a :=
      List.prefix_of_prefix_length_le hup (List.prefix_append a b) (by simpa using h1)
    obtain ⟨w, hw⟩ := hupa
    exact ⟨u, w, by simpa [List.append_assoc] using hw⟩
  · rcases le_or_lt a.length u.length with h2 | h2
    · right; left
      have hu : u <+: a ++ b := ⟨p ++ v, by simpa [List.append_assoc] using huv⟩
      have hau : a <+: u := List.prefix_of_prefix_length_le (List.prefix_append a b) hu h2
      obtain ⟨w, hw⟩ := hau
      refine ⟨w, v, ?_⟩
      have h5 : a ++ (w ++ (p ++ v)) = a ++ b := by
        rw [← List.append_assoc, hw]
        simpa [List.append_assoc] using huv
      simpa [List.append_assoc] using List.append_cancel_left h5
    · right; right
      obtain ⟨k, hklt, hk0, hksum⟩ : ∃ k, k < p.length ∧ 0 < k ∧ u.length + k = a.length :=
        ⟨a.length - u.length, by omega, by omega, by omega⟩
      have hpre : u ++ p.take k <+: a ++ b := by
        have h3 : u ++ p.take k <+: u ++ p :=
          ⟨p.drop k, by simp [List.append_assoc]⟩
        exact h3.trans ⟨v, by simpa [List.append_assoc] using huv⟩
      have hlen : (u ++ p.take k).length = a.length := by
        simp [List.length_take]
        omega
      have hua : u ++ p.take k = a := by
        have h4 : u ++ p.take k <+: a :=
          List.prefix_of_prefix_length_le hpre (List.prefix_append a b) (le_of_eq hlen)
        exact h4.eq_of_length hlen
      refine ⟨p.take k, p.drop k, (List.take_append_drop _ p).symm, ?_, ?_, ⟨u, hua⟩, ?_⟩
      · intro hnil
        rw [hnil] at hlen
        simp at hlen
        omega
      · intro hnil
        have h6 := congrArg List.length hnil
        rw [List.length_drop] at h6
        simp at h6
        omega
      · refine ⟨v, ?_⟩
        have h5 : a ++ (p.drop k ++ v) = a ++ b := by
          conv_lhs => rw [← hua]
          rw [List.append_assoc, ← List.append_assoc (p.take k), List.take_append_drop]
          simpa [List.append_assoc] using huv
        exact List.append_cancel_left h5

theorem infix_cons_elim {α : Type} {c : α} {p l : List α} (hc : c ∉ p) (h : p <:+: c :: l) :
    p <:+: l := by
  obtain ⟨u, v, huv⟩ := h
  match u, huv with
  | [], huv =>
    match p, hc, huv with
    | [], _, _ => exact ⟨[], l, by simp⟩
    | x :: xs, hc, huv =>
      simp only [List.nil_append, List.cons_append, List.cons.injEq] at huv
      obtain ⟨rfl, -⟩ := huv
      exact absurd (List.mem_cons_self _ _) hc
  | x :: u', huv =>
    simp only [List.cons_append, List.cons.injEq] at huv
    exact ⟨u', v, huv.2⟩

theorem infix_peel {α : Type} {c : α} {p a b : List α} (hc : c ∉ p) (ha : ¬ p <:+: a)
    (h : p <:+: a ++ c :: b) : p <:+: b := by
  rcases infix_split h with h1 | h1 | ⟨s, t, rfl, hs, ht, hsa, htb⟩
  · exact absurd h1 ha
  · exact infix_cons_elim hc h1
  · obtain ⟨w, hw⟩ := htb
    match t, ht, hw with
    | x :: t', _, hw =>
      simp only [List.cons_append, List.cons.injEq] at hw
      obtain ⟨rfl, -⟩ := hw
      exact absurd (List.mem_append_right s (List.mem_cons_self _ _)) hc

theorem not_infix_of_mem_not_mem {α : Type} {x : α} {p l : List α} (hx : x ∈ p) (hl : x ∉ l) :
    ¬ p <:+: l := fun h => hl (h.subset hx)

/-- Any pattern that avoids space, comma, period, contains a colon, does
not occur in the fixed template chunks and does not occur in any of the
five free-text fields, does not occur in the output of
`enhanced_enrich_prompt` when all four style selections are empty. -/
theorem no_label_in_plain_output {p : List Char} (pt mat color size det : String)
    (hsp : ' ' ∉ p) (hcm : ',' ∉ p) (hdt : '.' ∉ p) (hcl : ':' ∈ p)
    (hA : ¬ p <:+: "Create an image of a".data)
    (hB : ¬ p <:+: "made of".data)
    (hC : ¬ p <:+: "size".data)
    (hD : ¬ p <:+: "Style:".data)
    (h1 : ¬ p <:+: pt.data) (h2 : ¬ p <:+: mat.data) (h3 : ¬ p <:+: color.data)
    (h4 : ¬ p <:+: size.data) (h5 : ¬ p <:+: det.data) :
    ¬ p <:+: (App.enhanced_enrich_prompt pt mat color size det "" "" "" "").data := by
  intro h
  have hctx : ':' ∉ App.ikai_asai_context.data := by decide
  have hff : truthy "" = false := rfl
  rcases Bool.eq_false_or_eq_true (truthy size) with hs | hs <;>
    rcases Bool.eq_false_or_eq_true (truthy det) with hd | hd <;>
      simp only [App.enhanced_enrich_prompt, hs, hd, hff, Bool.false_eq_true, if_false, if_true,
        String.data_append, List.append_assoc] at h
  · replace h := infix_peel hsp hA h
    replace h := infix_peel hsp h3 h
    replace h := infix_peel hsp h1 h
    replace h := infix_peel hsp hB h
    replace h := infix_peel hcm h2 h
    replace h := infix_cons_elim hsp h
    replace h := infix_peel hsp hC h
    replace h := infix_peel hdt h4 h
    replace h := infix_cons_elim hsp h
    replace h := infix_peel hdt h5 h
    replace h := infix_cons_elim hsp h
    replace h := infix_peel hsp hD h
    exact not_infix_of_mem_not_mem hcl hctx h
  · replace h := infix_peel hsp hA h
    replace h := infix_peel hsp h3 h
    replace h := infix_peel hsp h1 h
    replace h := infix_peel hsp hB h
    replace h := infix_peel hcm h2 h
    replace h := infix_cons_elim hsp h
    replace h := infix_peel hsp hC h
    replace h := infix_peel hdt h4 h
    replace h := infix_cons_elim hsp h
    replace h := infix_peel hsp hD h
    exact not_infix_of_mem_not_mem hcl hctx h
  · replace h := infix_peel hsp hA h
    replace h := infix_peel hsp h3 h
    replace h := infix_peel hsp h1 h
    replace h := infix_peel hsp hB h
    replace h := infix_peel hdt h2 h
    replace h := infix_cons_elim hsp h
    replace h := infix_peel hdt h5 h
    replace h := infix_cons_elim hsp h
    replace h := infix_peel hsp hD h
    exact not_infix_of_mem_not_mem hcl hctx h
  · replace h := infix_peel hsp hA h
    replace h := infix_peel hsp h3 h
    replace h := infix_peel hsp h1 h
    replace h := infix_peel hsp hB h
    replace h := infix_peel hdt h2 h
    replace h := infix_cons_elim hsp h
    replace h := infix_peel hsp hD h
    exact not_infix_of_mem_not_mem hcl hctx h

end IkaiAsai

namespace IkaiAsai

/-! ### Claim theorems -/

/-- Claim C1: for the spec's worked scenario (bowl, ceramic, earthen
brown, 10cm x 5cm, "with geometric patterns", lighting "Soft diffused
studio light", all other style fields empty), `enhanced_enrich_prompt`
returns exactly the stated string: the product clause, the fixed brand
paragraph, and the lighting clause, byte for byte. -/
theorem c1_bowl_scenario_exact_output :
    App.enhanced_enrich_prompt "bowl" "ceramic" "earthen brown" "10cm x 5cm"
      "with geometric patterns" "Soft diffused studio light" "" "" "" =
    "Create an image of a earthen brown bowl made of ceramic, size 10cm x 5cm. with geometric patterns. Style: "
      ++ App.ikai_asai_context ++ " Lighting: Soft diffused studio light." := by
  rfl

/-- Claim C2: for every combination of the other fields, the generate
action with an empty `product_type` stops at the validation guard: the
outcome is the validation error, no prompt is composed or sent, and no
client call, fetch or decode happens. -/
theorem c2_empty_product_type_validation
    (fetch : String → Nat × List Nat) (b64dec : String → List Nat)
    (mat color size det l bg comp mood : String)
    (api_key : Option String) (apiResult : Except String (List DataEntry)) :
    App.generateFlow fetch b64dec "" mat color size det l bg comp mood api_key apiResult =
      ⟨.validationError, false, none, [], []⟩ :=
  rfl

/-- Claim C3, counterexample: an upstream error whose message contains
the marker "moderation_blocked" is reported through the generic handler
as `upstreamError`, not as the distinct `moderationBlockedError` that the
claim asserts. -/
theorem c3_counterexample_no_moderation_classification :
    (App.generateFlow (fun _ => (200, [])) (fun _ => []) "bowl" "ceramic" "" "" "" "" "" "" ""
        (some "sk-test")
        (.error "moderation_blocked: safety system rejected this request")).outcome =
      Outcome.upstreamError
        "Error during image generation: moderation_blocked: safety system rejected this request" ∧
    (App.generateFlow (fun _ => (200, [])) (fun _ => []) "bowl" "ceramic" "" "" "" "" "" "" ""
        (some "sk-test")
        (.error "moderation_blocked: safety system rejected this request")).outcome ≠
      Outcome.moderationBlockedError
        "moderation_blocked: safety system rejected this request" := by
  exact ⟨rfl, by decide⟩

/-- Claim C3 (amended): every upstream API error, including any whose
message contains "moderation_blocked", is reported through the single
generic except-block as `upstreamError` with message "Error during image
generation: " followed by the raised message; `generate` has no distinct
moderation classification. -/
theorem c3_upstream_errors_generic
    (fetch : String → Nat × List Nat) (b64dec : String → List Nat)
    (pt mat color size det l bg comp mood e : String)
    (api_key : Option String)
    (hpt : truthy pt = true) (hkey : truthyOpt api_key = true) :
    App.generateFlow fetch b64dec pt mat color size det l bg comp mood api_key (.error e) =
      ⟨.upstreamError ("Error during image generation: " ++ e), true,
        some (App.enhanced_enrich_prompt pt mat color size det l bg comp mood), [], []⟩ := by
  simp [App.generateFlow, hpt, hkey]

/-- Witness for the amended C3 theorem at a moderation-marker message. -/
theorem c3_upstream_errors_generic_witness :
    truthy "bowl" = true ∧ truthyOpt (some "sk-test") = true ∧
    App.generateFlow (fun _ => (200, [])) (fun _ => []) "bowl" "ceramic" "" "" "" "" "" "" ""
        (some "sk-test") (.error "moderation_blocked") =
      ⟨.upstreamError "Error during image generation: moderation_blocked", true,
        some (App.enhanced_enrich_prompt "bowl" "ceramic" "" "" "" "" "" "" ""), [], []⟩ :=
  ⟨by decide, by decide,
    c3_upstream_errors_generic (fun _ => (200, [])) (fun _ => []) "bowl" "ceramic" "" "" "" ""
      "" "" "" "moderation_blocked" (some "sk-test") (by decide) (by decide)⟩

end IkaiAsai

namespace IkaiAsai

/-- Claim C4, counterexample: free-text fields are inserted verbatim, so
a `ProductSpec` with non-empty product type, empty style options and a
color field that itself contains "Lighting:" yields an output that does
contain the substring "Lighting:", refuting the unrestricted claim. -/
theorem c4_counterexample_label_injection :
    truthy "bowl" = true ∧
    strContains (App.enhanced_enrich_prompt "bowl" "ceramic" "Lighting: dim" "" "" "" "" "" "")
      "Lighting:" := by
  decide

/-- Claim C4 (amended): for every `ProductSpec` with non-empty product
type and all four style options empty, provided none of the five
free-text fields itself contains one of the four style labels, the
composed output contains none of the substrings "Lighting:",
"Background:", "Composition:" or "Mood:". -/
theorem c4_plain_output_no_style_labels (pt mat color size det : String)
    (_hpt : truthy pt = true)
    (h1 : cleanField pt) (h2 : cleanField mat) (h3 : cleanField color)
    (h4 : cleanField size) (h5 : cleanField det) :
    cleanField (App.enhanced_enrich_prompt pt mat color size det "" "" "" "") := by
  refine ⟨?_, ?_, ?_, ?_⟩
  · exact no_label_in_plain_output pt mat color size det (by decide) (by decide) (by decide)
      (by decide) (by decide) (by decide) (by decide) (by decide)
      h1.1 h2.1 h3.1 h4.1 h5.1
  · exact no_label_in_plain_output pt mat color size det (by decide) (by decide) (by decide)
      (by decide) (by decide) (by decide) (by decide) (by decide)
      h1.2.1 h2.2.1 h3.2.1 h4.2.1 h5.2.1
  · exact no_label_in_plain_output pt mat color size det (by decide) (by decide) (by decide)
      (by decide) (by decide) (by decide) (by decide) (by decide)
      h1.2.2.1 h2.2.2.1 h3.2.2.1 h4.2.2.1 h5.2.2.1
  · exact no_label_in_plain_output pt mat color size det (by decide) (by decide) (by decide)
      (by decide) (by decide) (by decide) (by decide) (by decide)
      h1.2.2.2 h2.2.2.2 h3.2.2.2 h4.2.2.2 h5.2.2.2

/-- Witness for the amended C4 theorem on the spec's worked example. -/
theorem c4_plain_output_no_style_labels_witness :
    (truthy "bowl" = true ∧ cleanField "bowl" ∧ cleanField "ceramic" ∧
      cleanField "earthen brown" ∧ cleanField "10cm x 5cm" ∧
      cleanField "with geometric patterns") ∧
    cleanField (App.enhanced_enrich_prompt "bowl" "ceramic" "earthen brown" "10cm x 5cm"
      "with geometric patterns" "" "" "" "") :=
  ⟨⟨by decide, by decide, by decide, by decide, by decide, by decide⟩,
    c4_plain_output_no_style_labels "bowl" "ceramic" "earthen brown" "10cm x 5cm"
      "with geometric patterns" (by decide) (by decide) (by decide) (by decide) (by decide)
      (by decide)⟩

end IkaiAsai

namespace IkaiAsai

/-- Claim C5: a generate call whose API response has an empty `data`
list fails with the empty-response error; no image result is produced
and no secondary fetch or base64 decode is attempted. -/
theorem c5_empty_data_empty_response
    (fetch : String → Nat × List Nat) (b64dec : String → List Nat)
    (pt mat color size det l bg comp mood : String)
    (api_key : Option String)
    (hpt : truthy pt = true) (hkey : truthyOpt api_key = true) :
    App.generateFlow fetch b64dec pt mat color size det l bg comp mood api_key (.ok []) =
      ⟨.emptyResponseError, true,
        some (App.enhanced_enrich_prompt pt mat color size det l bg comp mood), [], []⟩ := by
  simp [App.generateFlow, hpt, hkey]

/-- Witness for the C5 theorem. -/
theorem c5_empty_data_empty_response_witness :
    truthy "bowl" = true ∧ truthyOpt (some "sk-test") = true ∧
    App.generateFlow (fun _ => (200, [])) (fun _ => []) "bowl" "ceramic" "earthen brown" ""
        "" "" "" "" "" (some "sk-test") (.ok []) =
      ⟨.emptyResponseError, true,
        some (App.enhanced_enrich_prompt "bowl" "ceramic" "earthen brown" "" "" "" "" "" ""),
        [], []⟩ :=
  ⟨by decide, by decide,
    c5_empty_data_empty_response (fun _ => (200, [])) (fun _ => []) "bowl" "ceramic"
      "earthen brown" "" "" "" "" "" "" (some "sk-test") (by decide) (by decide)⟩

/-- Claim C6: a generate call whose first response entry has no truthy
`url` but a non-empty `b64_json` payload succeeds through the inline
branch: the bytes are the base64 decoding of that payload, the source is
`inline`, and no secondary HTTP fetch is performed. -/
theorem c6_inline_payload_decoded
    (fetch : String → Nat × List Nat) (b64dec : String → List Nat)
    (pt mat color size det l bg comp mood : String)
    (api_key : Option String) (entry : DataEntry) (rest : List DataEntry)
    (hpt : truthy pt = true) (hkey : truthyOpt api_key = true)
    (hurl : truthyOpt entry.url = false) (hb64 : truthyOpt entry.b64_json = true) :
    App.generateFlow fetch b64dec pt mat color size det l bg comp mood api_key
        (.ok (entry :: rest)) =
      ⟨.success (b64dec (entry.b64_json.getD "")) .inline, true,
        some (App.enhanced_enrich_prompt pt mat color size det l bg comp mood),
        [], [entry.b64_json.getD ""]⟩ := by
  simp [App.generateFlow, hpt, hkey, hurl, hb64]

/-- Witness for the C6 theorem. -/
theorem c6_inline_payload_decoded_witness :
    truthy "bowl" = true ∧ truthyOpt (some "sk-test") = true ∧
    truthyOpt (DataEntry.mk none (some "aGVsbG8=")).url = false ∧
    truthyOpt (DataEntry.mk none (some "aGVsbG8=")).b64_json = true ∧
    App.generateFlow (fun _ => (200, [])) (fun _ => [104, 101, 108, 108, 111]) "bowl" "ceramic"
        "" "" "" "" "" "" "" (some "sk-test") (.ok [DataEntry.mk none (some "aGVsbG8=")]) =
      ⟨.success [104, 101, 108, 108, 111] .inline, true,
        some (App.enhanced_enrich_prompt "bowl" "ceramic" "" "" "" "" "" "" ""),
        [], ["aGVsbG8="]⟩ :=
  ⟨by decide, by decide, by decide, by decide,
    c6_inline_payload_decoded (fun _ => (200, [])) (fun _ => [104, 101, 108, 108, 111]) "bowl"
      "ceramic" "" "" "" "" "" "" "" (some "sk-test") (DataEntry.mk none (some "aGVsbG8=")) []
      (by decide) (by decide) (by decide) (by decide)⟩

end IkaiAsai

namespace IkaiAsai

/-- Claim C7, counterexample: in src/app1.py the credential is not
sourced from the process environment alone.  With the environment
variable absent but a session-state key entered in the sidebar,
`get_api_key` returns the session key and the generate action issues an
API client call instead of failing with a configuration error. -/
theorem c7_counterexample_session_key_bypasses_env :
    App1.get_api_key none (some "sk-session") = some "sk-session" ∧
    (App1.generateWithPromptFlow "a prompt" (App1.get_api_key none (some "sk-session"))
        (.ok [])).apiCalled = true ∧
    (App1.generateWithPromptFlow "a prompt" (App1.get_api_key none (some "sk-session"))
        (.ok [])).outcome ≠ Outcome.configError ∧
    (App1.generateWithPromptFlow "a prompt" (App1.get_api_key none (some "sk-session"))
        (.ok [])).outcome ≠ Outcome.configInfo := by
  decide

/-- Claim C7 (amended): in src/app.py, whose `get_api_key` reads only the
environment, a missing environment credential makes both the generate and
the edit action stop with the distinct configuration error before any
client call, fetch or decode; in src/app1.py the credential may also come
from the session-state sidebar input, and when both sources are absent
the generate action shows the configuration notice and performs no client
call. -/
theorem c7_missing_credential_blocks_calls
    (fetch : String → Nat × List Nat) (b64dec : String → List Nat)
    (pt mat color size det l bg comp mood ep prompt : String)
    (image_filename : Option String)
    (r1 r2 r3 : Except String (List DataEntry))
    (hpt : truthy pt = true) (hep : truthy ep = true) :
    App.generateFlow fetch b64dec pt mat color size det l bg comp mood (App.get_api_key none) r1 =
      ⟨.configError, false, none, [], []⟩ ∧
    App.editFlow fetch b64dec ep (App.get_api_key none) image_filename r2 =
      ⟨.configError, false, none, [], []⟩ ∧
    App1.generateWithPromptFlow prompt (App1.get_api_key none none) r3 =
      ⟨.configInfo, false, none, [], []⟩ := by
  refine ⟨?_, ?_, ?_⟩
  · simp [App.generateFlow, App.get_api_key, truthyOpt, hpt]
  · simp [App.editFlow, App.get_api_key, truthyOpt, hep]
  · simp [App1.generateWithPromptFlow, App1.get_api_key, truthyOpt]

/-- Witness for the amended C7 theorem. -/
theorem c7_missing_credential_blocks_calls_witness :
    truthy "bowl" = true ∧ truthy "make it taller" = true ∧
    App.generateFlow (fun _ => (200, [])) (fun _ => []) "bowl" "ceramic" "" "" "" "" "" "" ""
        (App.get_api_key none) (.ok []) = ⟨.configError, false, none, [], []⟩ ∧
    App.editFlow (fun _ => (200, [])) (fun _ => []) "make it taller" (App.get_api_key none)
        (some "ikai_asai_image_1.png") (.ok []) = ⟨.configError, false, none, [], []⟩ ∧
    App1.generateWithPromptFlow "a prompt" (App1.get_api_key none none) (.ok []) =
      ⟨.configInfo, false, none, [], []⟩ := by
  refine ⟨by decide, by decide, ?_⟩
  exact c7_missing_credential_blocks_calls (fun _ => (200, [])) (fun _ => []) "bowl" "ceramic"
    "" "" "" "" "" "" "" "make it taller" "a prompt" (some "ikai_asai_image_1.png")
    (.ok []) (.ok []) (.ok []) (by decide) (by decide)

/-- Claim C8: the composer is deterministic, reading nothing beyond its
arguments: runs on equal inputs produce byte-identical output strings. -/
theorem c8_compose_deterministic
    (a b c d e f g h i a' b' c' d' e' f' g' h' i' : String)
    (e1 : a = a') (e2 : b = b') (e3 : c = c') (e4 : d = d') (e5 : e = e')
    (e6 : f = f') (e7 : g = g') (e8 : h = h') (e9 : i = i') :
    App.enhanced_enrich_prompt a b c d e f g h i =
      App.enhanced_enrich_prompt a' b' c' d' e' f' g' h' i' := by
  subst e1 e2 e3 e4 e5 e6 e7 e8 e9
  rfl

/-- Witness for the C8 theorem. -/
theorem c8_compose_deterministic_witness :
    ("bowl" : String) = "bowl" ∧
    App.enhanced_enrich_prompt "bowl" "ceramic" "earthen brown" "" "" "" "" "" "" =
      App.enhanced_enrich_prompt "bowl" "ceramic" "earthen brown" "" "" "" "" "" "" :=
  ⟨rfl,
    c8_compose_deterministic "bowl" "ceramic" "earthen brown" "" "" "" "" "" ""
      "bowl" "ceramic" "earthen brown" "" "" "" "" "" ""
      rfl rfl rfl rfl rfl rfl rfl rfl rfl⟩

end IkaiAsai

namespace IkaiAsai

/-- Claim C9: when a response entry carries both a truthy `url` and a
non-empty `b64_json`, the generate and the edit handler both take the URL
branch: the only effect is fetching that URL (succeeding with source
`url` or failing with the download error) and the inline payload is never
decoded; conversely a decode can only have happened when the entry's
`url` was absent or empty. -/
theorem c9_url_branch_takes_priority
    (fetch : String → Nat × List Nat) (b64dec : String → List Nat)
    (pt mat color size det l bg comp mood ep fname : String)
    (api_key : Option String) (entry : DataEntry) (rest : List DataEntry)
    (hpt : truthy pt = true) (hep : truthy ep = true)
    (hkey : truthyOpt api_key = true) (hurl : truthyOpt entry.url = true) :
    ((App.generateFlow fetch b64dec pt mat color size det l bg comp mood api_key
        (.ok (entry :: rest))).decoded = [] ∧
      (App.generateFlow fetch b64dec pt mat color size det l bg comp mood api_key
        (.ok (entry :: rest))).fetched = [entry.url.getD ""] ∧
      ((App.generateFlow fetch b64dec pt mat color size det l bg comp mood api_key
          (.ok (entry :: rest))).outcome =
            Outcome.success (fetch (entry.url.getD "")).2 .url ∨
        (App.generateFlow fetch b64dec pt mat color size det l bg comp mood api_key
          (.ok (entry :: rest))).outcome =
            Outcome.downloadError (fetch (entry.url.getD "")).1)) ∧
    ((App.editFlow fetch b64dec ep api_key (some fname) (.ok (entry :: rest))).decoded = [] ∧
      (App.editFlow fetch b64dec ep api_key (some fname) (.ok (entry :: rest))).fetched =
        [entry.url.getD ""] ∧
      ((App.editFlow fetch b64dec ep api_key (some fname) (.ok (entry :: rest))).outcome =
          Outcome.success (fetch (entry.url.getD "")).2 .url ∨
        (App.editFlow fetch b64dec ep api_key (some fname) (.ok (entry :: rest))).outcome =
          Outcome.downloadError (fetch (entry.url.getD "")).1)) ∧
    (∀ e2 : DataEntry, ∀ rest2 : List DataEntry,
      (App.generateFlow fetch b64dec pt mat color size det l bg comp mood api_key
        (.ok (e2 :: rest2))).decoded ≠ [] → truthyOpt e2.url = false) ∧
    (∀ e2 : DataEntry, ∀ rest2 : List DataEntry,
      (App.editFlow fetch b64dec ep api_key (some fname) (.ok (e2 :: rest2))).decoded ≠ [] →
        truthyOpt e2.url = false) := by
  refine ⟨?_, ?_, ?_, ?_⟩
  · rcases hf : fetch (entry.url.getD "") with ⟨status, bytes⟩
    by_cases hst : status = 200 <;>
      simp [App.generateFlow, hpt, hkey, hurl, hf, hst]
  · rcases hf : fetch (entry.url.getD "") with ⟨status, bytes⟩
    by_cases hst : status = 200 <;>
      simp [App.editFlow, hep, hkey, hurl, hf, hst]
  · intro e2 rest2 hne
    rcases Bool.eq_false_or_eq_true (truthyOpt e2.url) with hu | hu
    · exfalso
      rcases hf : fetch (e2.url.getD "") with ⟨status, bytes⟩
      by_cases hst : status = 200 <;>
        simp [App.generateFlow, hpt, hkey, hu, hf, hst] at hne
    · exact hu
  · intro e2 rest2 hne
    rcases Bool.eq_false_or_eq_true (truthyOpt e2.url) with hu | hu
    · exfalso
      rcases hf : fetch (e2.url.getD "") with ⟨status, bytes⟩
      by_cases hst : status = 200 <;>
        simp [App.editFlow, hep, hkey, hu, hf, hst] at hne
    · exact hu

/-- Witness for the C9 theorem. -/
theorem c9_url_branch_takes_priority_witness :
    truthy "bowl" = true ∧ truthy "make it taller" = true ∧
    truthyOpt (some "sk-test") = true ∧
    truthyOpt (DataEntry.mk (some "https-image-url") (some "aGVsbG8=")).url = true ∧
    (App.generateFlow (fun _ => (200, [7])) (fun _ => []) "bowl" "ceramic" "" "" "" "" "" "" ""
        (some "sk-test")
        (.ok [DataEntry.mk (some "https-image-url") (some "aGVsbG8=")])).decoded = [] :=
  ⟨by decide, by decide, by decide, by decide,
    ((c9_url_branch_takes_priority (fun _ => (200, [7])) (fun _ => []) "bowl" "ceramic" "" ""
      "" "" "" "" "" "make it taller" "ikai_asai_image_1.png" (some "sk-test")
      (DataEntry.mk (some "https-image-url") (some "aGVsbG8=")) []
      (by decide) (by decide) (by decide) (by decide)).1).1⟩

/-- Claim C10: the composer functions of src/app.py and src/app1.py are
extensionally equal, both for the enhanced composer and for the original
one: callers may use either file's composer interchangeably. -/
theorem c10_composer_variants_equal :
    (∀ pt mat color size det l bg comp mood : String,
        App.enhanced_enrich_prompt pt mat color size det l bg comp mood =
          App1.enhanced_enrich_prompt pt mat color size det l bg comp mood) ∧
    (∀ u : String, App.original_enrich_prompt u = App1.original_enrich_prompt u) :=
  ⟨fun _ _ _ _ _ _ _ _ _ => rfl, fun _ => rfl⟩

end IkaiAsai
